import Mathlib

/-!
Verification of the turn-scoring and moderation pipeline of the AIDebateTool
server (`src/server.js`, latest revision; the earlier revisions differ in the
strike threshold, which is kept as a parameter here).

Modelling conventions:
* JavaScript numbers are modelled as rationals (`ℚ`); the pipeline only ever
  performs `+ - * min max` on small constants.
* The two `Math.random()` draws of a turn (the score jitter and the Extreme
  "heroic upset" roll) are explicit inputs of the pipeline.
* The external language-model call is an explicit input: either a failure
  (network error / non-2xx, i.e. the `await` throws) or a success carrying the
  raw output text.  `JSON.parse` on the brace-delimited candidate substring is
  an abstract parameter `jsonParse : String → Option RawModelData`; `none`
  models a parse exception.
* The `HARD_BAN` / `LANGUAGE_BAN` regex verdict on the student message is an
  explicit input (`Option ViolationKind`), since the claims under study
  quantify over "violating" and "clean" messages, not over the word lists.
* The per-student strike table `sensitiveCounts` (a JS `Map` read through
  `get(k) || 0`) is modelled as a total function `String → Nat`.
-/

namespace AIDebate

/-- Difficulty levels of a turn request (`profiles` keys in `server.js`). -/
inductive Difficulty
  | Beginner
  | Intermediate
  | Normal
  | Hard
  | Extreme
deriving DecidableEq, Repr

/-- Which moderation list the message matched: `HARD_BAN` ("hard") or
`LANGUAGE_BAN` ("language"), as in the `violationType` variable. -/
inductive ViolationKind
  | hard
  | language
deriving DecidableEq, Repr

/-- Outcome of the external model call `openai.responses.create`:
either the awaited promise rejects, or it yields the raw output text. -/
inductive ModelCall
  | failure
  | success (output : String)
deriving DecidableEq, Repr

/-- `Math.min` on the (finite) numbers involved here. -/
def jsMin (a b : ℚ) : ℚ := if a ≤ b then a else b

/-- `Math.max` on the (finite) numbers involved here. -/
def jsMax (a b : ℚ) : ℚ := if a ≤ b then b else a

theorem jsMin_eq (a b : ℚ) : jsMin a b = min a b := (min_def a b).symm

theorem jsMax_eq (a b : ℚ) : jsMax a b = max a b := (max_def a b).symm

/-- `clamp01` from `server.js`: `x => Math.max(0, Math.min(1, x))`. -/
def clamp01 (x : ℚ) : ℚ := jsMax 0 (jsMin 1 x)

/-- `mix` from `server.js`: `(a,b,t) => a*(1-t)+b*t`. -/
def mix (a b t : ℚ) : ℚ := a * (1 - t) + b * t

theorem clamp01_nonneg (x : ℚ) : 0 ≤ clamp01 x := by
  unfold clamp01
  rw [jsMax_eq, jsMin_eq]
  exact le_max_left 0 _

theorem clamp01_le_one (x : ℚ) : clamp01 x ≤ 1 := by
  unfold clamp01
  rw [jsMax_eq, jsMin_eq]
  exact max_le (by norm_num) (min_le_left 1 x)

/-- The per-difficulty `bias` of the `profiles` table in the latest revision
(used as the fallback `score` when the model output cannot be parsed). -/
def profileBias : Difficulty → ℚ
  | .Beginner => 18/100
  | .Intermediate => 40/100
  | .Normal => 48/100
  | .Hard => 65/100
  | .Extreme => 70/100

/-- The `target` constant of `applyDifficultyTilt` in the latest revision. -/
def tiltTarget : Difficulty → ℚ
  | .Beginner => 25/100
  | .Intermediate => 40/100
  | .Normal => 50/100
  | .Hard => 60/100
  | .Extreme => 75/100

/-- The pull strength `k` of `applyDifficultyTilt` in the latest revision. -/
def tiltK : Difficulty → ℚ
  | .Beginner => 0
  | .Intermediate => 8/100
  | .Normal => 5/100
  | .Hard => 12/100
  | .Extreme => 35/100

/-- `applyDifficultyTilt(baseScore, diff)` from `server.js`:
`clamp01(mix(baseScore, target, k))` with the per-difficulty constants. -/
def applyDifficultyTilt (baseScore : ℚ) (diff : Difficulty) : ℚ :=
  clamp01 (mix baseScore (tiltTarget diff) (tiltK diff))

/-- The whole score-shaping computation of `/api/debate` (latest revision),
from the neutral base `0.5` to the final `score` value stored in the response:
stance/concession adjustment, student-strength pull, low-effort (word-count)
penalty for non-Beginner, jitter, `clamp01`, `applyDifficultyTilt`, and the
Beginner / Extreme guardrails.  `stance` is the already-defaulted, lowercased
stance string; `concession` and `stuStrength` are the raw parsed numbers (the
code clamps them with `clamp01` on read, reproduced here); `saidAnything` is
`message.trim().length > 0`; `jitter` is the `Math.random()*0.02 - 0.01` draw;
`upsetRoll` is the `Math.random() < 0.10` event of the Extreme guardrail. -/
def shapeScore (stance : String) (concession stuStrength : ℚ) (difficulty : Difficulty)
    (wc : Nat) (saidAnything : Bool) (jitter : ℚ) (upsetRoll : Bool) : ℚ :=
  let conc := clamp01 concession
  let strength := clamp01 stuStrength
  let base1 : ℚ :=
    if stance = "agree" then 1/2 - (12/100) * (6/10 + (4/10) * conc)
    else if stance = "mixed" then 1/2 - (6/100) * (1/2 + (1/2) * conc)
    else 1/2 + (8/100) * (1 - conc)
  let base2 := base1 + (1/2 - strength) * (30/100)
  let base3 :=
    if difficulty ≠ .Beginner then
      if wc ≤ 4 then mix base2 (68/100) (55/100)
      else if wc ≤ 8 then mix base2 (60/100) (35/100)
      else base2
    else base2
  let base4 := clamp01 (base3 + jitter)
  let tilted := applyDifficultyTilt base4 difficulty
  if difficulty = .Beginner then
    if saidAnything then jsMin tilted (35/100) else tilted
  else if difficulty = .Extreme then
    if 75/100 ≤ strength ∧ upsetRoll then jsMin tilted (46/100) else tilted
  else tilted

/-- Outcome derivation of `/api/debate`: `"ai"` above `0.52`, `"student"`
below `0.48`, else `"mixed"`. -/
def outcomeOf (score : ℚ) : String :=
  if 52/100 < score then "ai"
  else if score < 48/100 then "student"
  else "mixed"

/-- JavaScript `Math.round` (round half toward positive infinity). -/
def jsRound (x : ℚ) : ℤ := ⌊x + 1/2⌋

/-- HUD meter: `Math.round(score * 100)`. -/
def meterOf (score : ℚ) : ℤ := jsRound (score * 100)

/-- HUD leader: `"ai"` when `meter > 52`, `"student"` when `meter < 48`,
else `"tied"`. -/
def leaderOf (meter : ℤ) : String :=
  if 52 < meter then "ai"
  else if meter < 48 then "student"
  else "tied"

/-- HUD label banding of the latest revision. -/
def labelOf (leader : String) (meter : ℤ) : String :=
  if leader = "ai" then
    if 80 ≤ meter then "AI far ahead"
    else if 65 ≤ meter then "AI clearly ahead"
    else "AI slightly ahead"
  else if leader = "student" then
    if meter ≤ 20 then "Student far ahead"
    else if meter ≤ 35 then "Student clearly ahead"
    else "Student slightly ahead"
  else "Neck and neck"

/-- ASCII lowercase of a string, as `String.prototype.toLowerCase` acts on
the ASCII texts involved here. -/
def lowerStr (s : String) : String := ⟨s.data.map Char.toLower⟩

/-- All suffixes of a list (longest first, ending with `[]`). -/
def suffixes : List Char → List (List Char)
  | [] => [[]]
  | c :: cs => (c :: cs) :: suffixes cs

/-- JavaScript `hay.includes(needle)`: `needle` occurs as a contiguous
substring of `hay`. -/
def containsStr (hay needle : String) : Bool :=
  (suffixes hay.data).any (fun t => needle.data.isPrefixOf t)

/-- The static `TOPIC_KEYWORDS` table of the latest revision. -/
def topicKeywords (topic : String) : List String :=
  if topic = "Video games can help learning" then
    ["video game","gaming","game","learn","learning","educational","practice","skills",
     "strategy","puzzle","problem solving","memory","hand eye coordination","minecraft",
     "fortnite","roblox"]
  else if topic = "Homework should be optional" then
    ["homework","assignment","study","after school","optional","practice","workload",
     "busywork","stress","stressed","tired","drained","overwhelmed","relax","free time",
     "time at home","worksheet","due"]
  else if topic = "School should start later" then
    ["start time","start later","sleep","tired","morning","bell schedule","wake up",
     "too early","rest","fatigue","bus schedule"]
  else if topic = "School uniforms are a good idea" then
    ["uniform","dress code","clothes","bullying","equal","equality","cost","same outfit",
     "appearance","brand","fashion","fairness"]
  else if topic = "Zoos are helpful for animals" then
    ["zoo","animal","habitat","conservation","rescue","species","extinct","breeding",
     "sanctuary","care","keepers","protection"]
  else []

/-- `keywordMatch(topic, text)` from `server.js`: some keyword of the topic
occurs (case-insensitively) as a substring of the message. -/
def keywordMatch (topic text : String) : Bool :=
  (topicKeywords topic).any (fun k => containsStr (lowerStr text) k)

/-- The soft on-topic hint string (`server.js` line 310). -/
def hintText (topic : String) : String :=
  "Let’s try to mention the topic “" ++ topic ++ "” directly or a related idea."

/-- The hint computation of `/api/debate`: produced exactly when a topic is
set (JS-truthy, i.e. non-null and non-empty) and no keyword matches; attached
to the response because the hint string is never empty. -/
def hintOf (topic : Option String) (message : String) : Option String :=
  match topic with
  | none => none
  | some t =>
    if t = "" then none
    else if keywordMatch t message then none
    else some (hintText t)

/-- A `\w` character of the JS regexes: ASCII letter, digit or underscore. -/
def isWordChar (c : Char) : Bool := c.isAlphanum || c = Char.ofNat 95

/-- A character of a `[\w']+` token: word character or ASCII apostrophe. -/
def isTokenChar (c : Char) : Bool := isWordChar c || c = Char.ofNat 39

/-- Helper for `wordCount`: scans the characters, counting one word per
maximal `[\w']+` run that contains at least one `\w` character (which is
what `(s.match(/\b[\w']+\b/g) || []).length` counts).  The flag records
whether the current run has already been counted. -/
def wcGo : List Char → Bool → Nat
  | [], _ => 0
  | c :: cs, counted =>
    if isTokenChar c then
      if isWordChar c && !counted then 1 + wcGo cs true
      else wcGo cs counted
    else wcGo cs false

/-- `wordCount(s)` from `server.js`: `(s.match(/\b[\w']+\b/g) || []).length`. -/
def wordCount (s : String) : Nat := wcGo s.data false

/-- `(message || "").trim().length > 0` — the message contains at least one
non-whitespace character. -/
def saidAnything (message : String) : Bool :=
  message.data.any (fun c => !c.isWhitespace)

/-- JS `indexOf` of a character over the char list: index of the first
occurrence, `-1` when absent. -/
def firstIdxOf (c : Char) (l : List Char) : ℤ :=
  match l.findIdx? (fun x => x = c) with
  | some n => (n : ℤ)
  | none => -1

/-- JS `lastIndexOf` of a character: index of the last occurrence, `-1`
when absent. -/
def lastIdxOf (c : Char) (l : List Char) : ℤ :=
  match l.reverse.findIdx? (fun x => x = c) with
  | some n => (l.length : ℤ) - 1 - (n : ℤ)
  | none => -1

/-- JavaScript `String.prototype.slice` index normalization: negative
indices count from the end, then the index is clamped to `[0, len]`. -/
def jsSliceIdx (len i : ℤ) : ℤ :=
  if i < 0 then max (len + i) 0 else min i len

/-- JavaScript `s.slice(start, stop)` on the character list. -/
def jsSlice (l : List Char) (start stop : ℤ) : List Char :=
  (l.take (jsSliceIdx l.length stop).toNat).drop (jsSliceIdx l.length start).toNat

/-- The JSON candidate substring the code feeds to `JSON.parse`:
`out.slice(out.indexOf("{"), out.lastIndexOf("}") + 1)`. -/
def extractCandidate (out : String) : String :=
  ⟨jsSlice out.data (firstIdxOf (Char.ofNat 123) out.data)
      (lastIdxOf (Char.ofNat 125) out.data + 1)⟩

/-- The fields of the JSON object the prompt asks the model for, as far as
the pipeline reads them (`none` = key missing or null in the parsed JSON). -/
structure RawModelData where
  reply : Option String
  stance : Option String
  outcome : Option String
  score : Option ℚ
  concession : Option ℚ
  student_strength : Option ℚ
deriving DecidableEq, Repr

/-- The synthesized fallback object of the `catch` branch around
`JSON.parse` (latest revision, lines 400–407): generic reply, mixed stance
and outcome, `score = profile.bias`, zero concession, `0.5` strength. -/
def fallbackData (bias : ℚ) : RawModelData :=
  { reply := some "That\x27s an interesting point—here’s one idea to consider on this topic."
    stance := some "mixed"
    outcome := some "mixed"
    score := some bias
    concession := some 0
    student_strength := some (1/2) }

/-- The response-parsing boundary: extract the first-`{`-to-last-`}`
candidate and run the (abstract) JSON parser on it; any parse failure
synthesizes `fallbackData` instead of propagating an error. -/
def parseModelOutput (jsonParse : String → Option RawModelData) (bias : ℚ)
    (out : String) : RawModelData :=
  match jsonParse (extractCandidate out) with
  | none => fallbackData bias
  | some d => d

/-- The effective stance used by the scoring code:
`(data.stance || "mixed").toLowerCase()`. -/
def effStance (o : Option String) : String :=
  match o with
  | none => "mixed"
  | some s => if s = "" then "mixed" else lowerStr s

/-- Default AI reply substituted when `data.reply` is falsy (missing or
empty), `server.js` lines 508–510. -/
def defaultReply : String :=
  "Thanks! I see your point—here’s one idea to consider on this topic."

/-- `data.reply` with the falsy-default applied. -/
def effReply (o : Option String) : String :=
  match o with
  | none => defaultReply
  | some r => if r = "" then defaultReply else r

/-- The HUD object of the response. -/
structure Hud where
  meter : ℤ
  leader : String
  label : String
  difficulty : Difficulty
deriving DecidableEq, Repr

/-- The JSON body of a successful (non-violation) turn response, restricted
to the fields the pipeline itself sets. -/
structure TurnData where
  reply : String
  stance : Option String
  outcome : String
  score : ℚ
  round : ℤ
  nextRound : ℤ
  endDebate : Bool
  hud : Hud
  hint : Option String
deriving DecidableEq, Repr

/-- The possible results of one `/api/debate` request.  A violation carries
`endDebate : Bool` (`false` models the JSON key being absent, which the
client reads as falsy). -/
inductive Response
  | clientError (msg : String)
  | violation (category : String) (endDebate : Bool) (allowRetry : Bool) (instructions : String)
  | turn (d : TurnData)
  | serverError (msg : String)
deriving DecidableEq, Repr

/-- Whether a response is a moderation violation. -/
def Response.isViolation : Response → Bool
  | .violation _ _ _ _ => true
  | _ => false

/-- The final score of a turn response, when there is one. -/
def Response.finalScore : Response → Option ℚ
  | .turn d => some d.score
  | _ => none

/-- The data with the optional hint removed (for stating that a field other
than the hint does not depend on the topic check). -/
def Response.stripHint : Response → Response
  | .turn d => .turn { d with hint := none }
  | r => r

/-- The stop message of a terminal violation. -/
def stopMsg : String :=
  "We have to stop the debate now to keep things school-appropriate."

/-- The warning message of a non-terminal violation, per violation list. -/
def firstMsg : ViolationKind → String
  | .hard =>
    "Please avoid graphic self-harm or explicit sexual content. Let\x27s keep this school-safe."
  | .language =>
    "Please avoid strong curse words or slurs. Let\x27s keep the debate respectful and school-safe."

/-- One turn request, as destructured from the request body.  `studentKey`
stands for the derived key string
`firstName_lastInitial`; `topic = none` models a null topic. -/
structure TurnRequest where
  message : String
  difficulty : Difficulty
  round : ℤ
  topic : Option String
  studentKey : String
deriving DecidableEq, Repr

/-- The per-request inputs that the code obtains from the environment:
the regex verdict on the message, the external model call, and the two
random draws. -/
structure TurnInput where
  viol : Option ViolationKind
  call : ModelCall
  jitter : ℚ
  upsetRoll : Bool
deriving DecidableEq, Repr

/-- The `sensitiveCounts` map, read through `get(k) || 0`. -/
def StrikeState : Type := String → Nat

/-- `sensitiveCounts.set(key, n)`. -/
def updateStrike (st : StrikeState) (key : String) (n : Nat) : StrikeState :=
  fun k => if k = key then n else st k

/-- The strike map with no recorded strikes. -/
def strike0 : StrikeState := fun _ => 0

/-- The successful-turn response body: parse (with fallback), shape the
score, derive outcome and HUD, set the round fields and attach the optional
hint (`server.js` lines 394–512). -/
def mkTurnData (jsonParse : String → Option RawModelData) (req : TurnRequest)
    (inp : TurnInput) (out : String) : TurnData :=
  let bias := profileBias req.difficulty
  let raw := parseModelOutput jsonParse bias out
  let score := shapeScore (effStance raw.stance) (raw.concession.getD 0)
    (raw.student_strength.getD (1/2)) req.difficulty (wordCount req.message)
    (saidAnything req.message) inp.jitter inp.upsetRoll
  let meter := meterOf score
  let leader := leaderOf meter
  { reply := effReply raw.reply
    stance := raw.stance
    outcome := outcomeOf score
    score := score
    round := req.round
    nextRound := req.round + 1
    endDebate := 5 < req.round + 1
    hud := ⟨meter, leader, labelOf leader meter, req.difficulty⟩
    hint := hintOf req.topic req.message }

/-- One `/api/debate` request of the latest revision, as a function of the
request, the environment inputs and the strike map.  `threshold` is the
strike cutoff of the violation branch (`next >= 3` in the latest revision,
`next >= 2`/`newCount >= 2` in the earlier ones); everything else follows
the latest revision.  Steps, in source order: missing-message check,
moderation branch (increment, threshold test, early return), reset-on-clean,
model call (a rejection is caught by the surrounding `try` and turned into
a 500), then `mkTurnData`. -/
def processTurn (threshold : Nat) (jsonParse : String → Option RawModelData)
    (req : TurnRequest) (inp : TurnInput) (st : StrikeState) :
    Response × StrikeState :=
  if req.message = "" then (.clientError "Missing message", st)
  else
    match inp.viol with
    | some kind =>
      let next := st req.studentKey + 1
      let st1 := updateStrike st req.studentKey next
      if threshold ≤ next then
        (.violation "sensitive" true false stopMsg, st1)
      else
        (.violation "sensitive" false true (firstMsg kind), st1)
    | none =>
      let st1 := if st req.studentKey ≠ 0 then updateStrike st req.studentKey 0 else st
      match inp.call with
      | .failure => (.serverError "Failed to get AI response.", st1)
      | .success out => (.turn (mkTurnData jsonParse req inp out), st1)

/-- A sequence of `/api/debate` requests processed against the same strike
map, returning the list of responses and the final map. -/
def runDebate (threshold : Nat) (jsonParse : String → Option RawModelData) :
    List (TurnRequest × TurnInput) → StrikeState → List Response × StrikeState
  | [], st => ([], st)
  | (r, i) :: rest, st =>
    let step := processTurn threshold jsonParse r i st
    let tail := runDebate threshold jsonParse rest step.2
    (step.1 :: tail.1, tail.2)

/-- A JSON parser that never succeeds (used to instantiate witnesses). -/
def jpNone : String → Option RawModelData := fun _ => none

theorem tilt_nonneg (x : ℚ) (d : Difficulty) : 0 ≤ applyDifficultyTilt x d :=
  clamp01_nonneg _

theorem tilt_le_one (x : ℚ) (d : Difficulty) : applyDifficultyTilt x d ≤ 1 :=
  clamp01_le_one _

theorem guard_bounds (difficulty : Difficulty) (strength : ℚ) (said upset : Bool) (t : ℚ)
    (ht0 : 0 ≤ t) (ht1 : t ≤ 1) :
    0 ≤ (if difficulty = .Beginner then (if said then jsMin t (35/100) else t)
         else if difficulty = .Extreme then
           (if 75/100 ≤ strength ∧ upset then jsMin t (46/100) else t)
         else t) ∧
      (if difficulty = .Beginner then (if said then jsMin t (35/100) else t)
         else if difficulty = .Extreme then
           (if 75/100 ≤ strength ∧ upset then jsMin t (46/100) else t)
         else t) ≤ 1 := by
  have key : ∀ c : ℚ, 0 ≤ c → 0 ≤ jsMin t c ∧ jsMin t c ≤ 1 := by
    intro c hc
    rw [jsMin_eq]
    exact ⟨le_min ht0 hc, le_trans (min_le_left _ _) ht1⟩
  split_ifs <;> first
    | exact ⟨ht0, ht1⟩
    | exact key _ (by norm_num)

/-- Claim C1: for every valid turn request that reaches scoring, the final
score lies in `[0,1]` exactly — after the stance/concession adjustment,
low-effort penalty, jitter, difficulty tilt and guardrail steps, no produced
score is below 0 or above 1 (for any stance string, any parsed numbers, any
difficulty, any word count and any jitter value). -/
theorem score_bounded (stance : String) (concession stuStrength : ℚ)
    (difficulty : Difficulty) (wc : Nat) (said : Bool) (jitter : ℚ) (upset : Bool) :
    0 ≤ shapeScore stance concession stuStrength difficulty wc said jitter upset ∧
      shapeScore stance concession stuStrength difficulty wc said jitter upset ≤ 1 := by
  simp only [shapeScore]
  exact guard_bounds difficulty (clamp01 stuStrength) said upset _
    (clamp01_nonneg _) (clamp01_le_one _)

/-- Amended claim C6: for Beginner it is the low-effort (word-count) penalty
that is skipped — holding every other input fixed, the final score of a
Beginner turn does not depend on the word count.  (The stance/concession
adjustment is applied for Beginner too; see the counterexample.) -/
theorem beginner_skips_word_penalty (stance : String) (concession stuStrength : ℚ)
    (wc1 wc2 : Nat) (said : Bool) (jitter : ℚ) (upset : Bool) :
    shapeScore stance concession stuStrength .Beginner wc1 said jitter upset =
      shapeScore stance concession stuStrength .Beginner wc2 said jitter upset := by
  unfold shapeScore
  simp

/-- Counterexample to claim C6: with difficulty Beginner and everything else
fixed (jitter 0), changing only the parsed concession value changes the
final score (0.23 versus 0.278), so the stance/concession adjustment is not
skipped for Beginner. -/
theorem beginner_stance_counterexample :
    shapeScore "agree" 1 1 .Beginner 10 true 0 false ≠
      shapeScore "agree" 0 1 .Beginner 10 true 0 false := by
  norm_num [shapeScore, clamp01, jsMin, jsMax, mix, applyDifficultyTilt, tiltTarget, tiltK]

/-- Amended claim C9: with the jitter fixed at 0 and the Extreme
heroic-upset draw fixed, the shaped score of every difficulty other than
Beginner is a pure function of (stance, concession, studentStrength,
difficulty, wordCount): the only remaining input of the shaping computation,
the Beginner-guardrail test `message.trim().length > 0`, does not influence
it.  (For Beginner itself that test is a genuine extra input; see the
counterexample.) -/
theorem shaping_function_of_inputs (stance : String) (concession stuStrength : ℚ)
    (difficulty : Difficulty) (wc : Nat) (upset : Bool) (said1 said2 : Bool)
    (hd : difficulty ≠ .Beginner) :
    shapeScore stance concession stuStrength difficulty wc said1 0 upset =
      shapeScore stance concession stuStrength difficulty wc said2 0 upset := by
  unfold shapeScore
  simp [hd]

/-- Claim C3: the derived outcome equals "ai" iff the score is strictly
above 0.52, "student" iff strictly below 0.48, and "mixed" otherwise —
in particular "mixed" exactly at the boundary values 0.52 and 0.48. -/
theorem outcome_thresholds (s : ℚ) :
    (outcomeOf s = "ai" ↔ 52/100 < s) ∧
    (outcomeOf s = "student" ↔ s < 48/100) ∧
    (outcomeOf s = "mixed" ↔ 48/100 ≤ s ∧ s ≤ 52/100) ∧
    outcomeOf (52/100) = "mixed" ∧ outcomeOf (48/100) = "mixed" := by
  refine ⟨?_, ?_, ?_, by norm_num [outcomeOf], by norm_num [outcomeOf]⟩ <;>
    · unfold outcomeOf
      split_ifs with h1 h2 <;> simp_all <;> linarith

/-- Claim C10: outcome and HUD leader can disagree at the decision boundary.
For a final score strictly between 0.52 and 0.525 the outcome is "ai" but
the meter rounds to 52, hence the leader is "tied"; symmetrically, for a
score in [0.475, 0.48) the outcome is "student" but the meter rounds to 48
(JS `Math.round` rounds half up) and the leader is "tied". -/
theorem outcome_leader_disagree (s : ℚ) :
    (52/100 < s → s < 525/1000 →
      outcomeOf s = "ai" ∧ meterOf s = 52 ∧ leaderOf (meterOf s) = "tied") ∧
    (475/1000 ≤ s → s < 48/100 →
      outcomeOf s = "student" ∧ meterOf s = 48 ∧ leaderOf (meterOf s) = "tied") := by
  constructor
  · intro h1 h2
    have hm : meterOf s = 52 := by
      unfold meterOf jsRound
      rw [Int.floor_eq_iff]
      constructor
      · push_cast
        linarith
      · push_cast
        linarith
    refine ⟨?_, hm, ?_⟩
    · unfold outcomeOf
      rw [if_pos h1]
    · rw [hm]
      decide
  · intro h1 h2
    have hm : meterOf s = 48 := by
      unfold meterOf jsRound
      rw [Int.floor_eq_iff]
      constructor
      · push_cast
        linarith
      · push_cast
        linarith
    refine ⟨?_, hm, ?_⟩
    · unfold outcomeOf
      rw [if_neg (by linarith), if_pos h2]
    · rw [hm]
      decide

/-- Witness for C10 at the concrete scores 0.521 and 0.476. -/
theorem outcome_leader_disagree_witness :
    (outcomeOf (521/1000) = "ai" ∧ meterOf (521/1000) = 52 ∧
      leaderOf (meterOf (521/1000)) = "tied") ∧
    (outcomeOf (476/1000) = "student" ∧ meterOf (476/1000) = 48 ∧
      leaderOf (meterOf (476/1000)) = "tied") :=
  ⟨(outcome_leader_disagree (521/1000)).1 (by norm_num) (by norm_num),
   (outcome_leader_disagree (476/1000)).2 (by norm_num) (by norm_num)⟩

theorem processTurn_flagged (threshold : Nat) (jsonParse : String → Option RawModelData)
    (req : TurnRequest) (inp : TurnInput) (st : StrikeState) (k : ViolationKind)
    (hmsg : req.message ≠ "") (hv : inp.viol = some k) :
    processTurn threshold jsonParse req inp st =
      (if threshold ≤ st req.studentKey + 1
        then Response.violation "sensitive" true false stopMsg
        else Response.violation "sensitive" false true (firstMsg k),
       updateStrike st req.studentKey (st req.studentKey + 1)) := by
  simp only [processTurn, hv, hmsg, if_neg, ite_false, ite_true]
  split_ifs <;> rfl

theorem processTurn_clean (threshold : Nat) (jsonParse : String → Option RawModelData)
    (req : TurnRequest) (inp : TurnInput) (st : StrikeState)
    (hmsg : req.message ≠ "") (hv : inp.viol = none) :
    (processTurn threshold jsonParse req inp st).2 =
      (if st req.studentKey ≠ 0 then updateStrike st req.studentKey 0 else st) ∧
    (processTurn threshold jsonParse req inp st).1.isViolation = false := by
  simp only [processTurn, hv, hmsg, if_neg, ite_false, ite_true]
  cases hc : inp.call <;> exact ⟨rfl, rfl⟩

theorem processTurn_success (threshold : Nat) (jsonParse : String → Option RawModelData)
    (req : TurnRequest) (inp : TurnInput) (st : StrikeState) (out : String)
    (hmsg : req.message ≠ "") (hv : inp.viol = none) (hc : inp.call = .success out) :
    (processTurn threshold jsonParse req inp st).1 =
      .turn (mkTurnData jsonParse req inp out) := by
  simp only [processTurn, hv, hc, hmsg, if_neg, ite_false, ite_true]

theorem processTurn_failure (threshold : Nat) (jsonParse : String → Option RawModelData)
    (req : TurnRequest) (inp : TurnInput) (st : StrikeState)
    (hmsg : req.message ≠ "") (hv : inp.viol = none) (hc : inp.call = .failure) :
    (processTurn threshold jsonParse req inp st).1 =
      .serverError "Failed to get AI response." := by
  simp only [processTurn, hv, hc, hmsg, if_neg, ite_false, ite_true]

/-- Amended claim C7: when the external model call fails, the request
returns the generic server-error signal; on this path no strike-count
entry is ever incremented, and if the requesting student had no recorded
strikes the table is left exactly as before the request.  (The request is
not free of strike-table mutation in general: the clean message resets a
nonzero count to 0 before the model call, and that reset survives the
failure — see the counterexample.) -/
theorem model_failure_state (threshold : Nat) (jsonParse : String → Option RawModelData)
    (req : TurnRequest) (inp : TurnInput) (st : StrikeState)
    (hmsg : req.message ≠ "") (hclean : inp.viol = none) (hfail : inp.call = .failure) :
    (processTurn threshold jsonParse req inp st).1 =
        .serverError "Failed to get AI response." ∧
    (processTurn threshold jsonParse req inp st).2 =
      (if st req.studentKey ≠ 0 then updateStrike st req.studentKey 0 else st) ∧
    (st req.studentKey = 0 → (processTurn threshold jsonParse req inp st).2 = st) ∧
    (∀ k, (processTurn threshold jsonParse req inp st).2 k ≤ st k) := by
  have h2 := (processTurn_clean threshold jsonParse req inp st hmsg hclean).1
  refine ⟨processTurn_failure threshold jsonParse req inp st hmsg hclean hfail, h2, ?_, ?_⟩
  · intro h0
    rw [h2, if_neg]
    simp [h0]
  · intro k
    rw [h2]
    by_cases h0 : st req.studentKey ≠ 0
    · rw [if_pos h0]
      unfold updateStrike
      by_cases hk : k = req.studentKey
      · simp [hk]
      · simp [hk]
    · rw [if_neg h0]

/-- Counterexample to claim C7: a student with one recorded strike sends a
clean message and the model call fails; the strike table is not left
exactly as before the request — the entry was reset from 1 to 0 by the
clean-message branch before the call. -/
theorem model_failure_counterexample :
    (fun k => if k = "A_B" then 1 else 0 : StrikeState) "A_B" = 1 ∧
    (processTurn 3 jpNone ⟨"hello", .Normal, 1, none, "A_B"⟩ ⟨none, .failure, 0, false⟩
        (fun k => if k = "A_B" then 1 else 0)).2 "A_B" = 0 :=
  ⟨rfl, rfl⟩

/-- Witness for the amended C7 at a concrete request with no prior strikes. -/
theorem model_failure_state_witness :
    (processTurn 3 jpNone ⟨"hello", .Normal, 1, none, "A_B"⟩ ⟨none, .failure, 0, false⟩
        strike0).1 = .serverError "Failed to get AI response." ∧
    (processTurn 3 jpNone ⟨"hello", .Normal, 1, none, "A_B"⟩ ⟨none, .failure, 0, false⟩
        strike0).2 = strike0 := by
  have h := model_failure_state 3 jpNone ⟨"hello", .Normal, 1, none, "A_B"⟩
    ⟨none, .failure, 0, false⟩ strike0 (by decide) rfl rfl
  exact ⟨h.1, h.2.2.1 rfl⟩

/-- Claim C5: when no JSON object can be parsed from the model output (the
abstract parser rejects the brace-delimited candidate — in particular when
no braces are present, in which case the candidate degenerates to "" or
"}"), the pipeline synthesizes the fallback result (generic reply, stance
"mixed", outcome "mixed", score = the active difficulty biasScore,
concession 0, studentStrength 0.5) and still returns a complete turn
response; the parse failure is never surfaced as an error. -/

theorem parse_fallback (threshold : Nat) (jsonParse : String → Option RawModelData)
    (req : TurnRequest) (inp : TurnInput) (st : StrikeState) (out : String)
    (hmsg : req.message ≠ "") (hclean : inp.viol = none) (hcall : inp.call = .success out)
    (hparse : jsonParse (extractCandidate out) = none) :
    parseModelOutput jsonParse (profileBias req.difficulty) out =
        fallbackData (profileBias req.difficulty) ∧
    ∃ d, (processTurn threshold jsonParse req inp st).1 = .turn d ∧
      d.reply = "That\x27s an interesting point—here’s one idea to consider on this topic." ∧
      d.stance = some "mixed" ∧
      d.outcome = outcomeOf d.score ∧
      d.score = shapeScore "mixed" 0 (1/2) req.difficulty (wordCount req.message)
        (saidAnything req.message) inp.jitter inp.upsetRoll := by
  have hpm : parseModelOutput jsonParse (profileBias req.difficulty) out =
      fallbackData (profileBias req.difficulty) := by
    unfold parseModelOutput
    rw [hparse]
  refine ⟨hpm, mkTurnData jsonParse req inp out,
    processTurn_success threshold jsonParse req inp st out hmsg hclean hcall, ?_, ?_, ?_, ?_⟩
  · show effReply (parseModelOutput jsonParse (profileBias req.difficulty) out).reply = _
    rw [hpm]
    rfl
  · show (parseModelOutput jsonParse (profileBias req.difficulty) out).stance = _
    rw [hpm]
    rfl
  · rfl
  · show shapeScore (effStance (parseModelOutput jsonParse (profileBias req.difficulty) out).stance)
        ((parseModelOutput jsonParse (profileBias req.difficulty) out).concession.getD 0)
        ((parseModelOutput jsonParse (profileBias req.difficulty) out).student_strength.getD (1/2))
        req.difficulty (wordCount req.message) (saidAnything req.message)
        inp.jitter inp.upsetRoll = _
    rw [hpm]
    rfl

/-- Witness for C5: a plain-text model output with no parseable JSON still
produces a complete turn response built from the fallback data. -/
theorem parse_fallback_witness :
    ∃ d, (processTurn 3 jpNone ⟨"hello no json", .Normal, 1, none, "A_B"⟩
        ⟨none, .success "plain text only", 0, false⟩ strike0).1 = .turn d ∧
      d.reply = "That\x27s an interesting point—here’s one idea to consider on this topic." ∧
      d.stance = some "mixed" ∧
      d.outcome = outcomeOf d.score ∧
      d.score = shapeScore "mixed" 0 (1/2) .Normal (wordCount "hello no json")
        (saidAnything "hello no json") 0 false := by
  have h := parse_fallback 3 jpNone ⟨"hello no json", .Normal, 1, none, "A_B"⟩
    ⟨none, .success "plain text only", 0, false⟩ strike0 "plain text only"
    (by decide) rfl rfl rfl
  exact h.2

/-- Characterization of the hint: present exactly when a topic is set
(non-null, non-empty) and no keyword of that topic matches the message. -/
theorem hintOf_isSome (topic : Option String) (message : String) :
    hintOf topic message ≠ none ↔
      ∃ t, topic = some t ∧ t ≠ "" ∧ keywordMatch t message = false := by
  cases topic with
  | none => simp [hintOf]
  | some t =>
    simp only [hintOf]
    split_ifs with h1 h2 <;> simp_all

/-- Claim C8: the topic-relevance check is purely advisory.  Varying the
topic (hence the keyword match) never changes anything in the response
except the optional hint field, never changes the strike state, and never
blocks the turn; on the successful path the hint is present exactly when
a topic is set and no keyword of its list occurs case-insensitively in
the message. -/
theorem topic_hint_advisory (threshold : Nat) (jsonParse : String → Option RawModelData)
    (req : TurnRequest) (inp : TurnInput) (st : StrikeState) :
    (∀ t1 t2 : Option String,
      ((processTurn threshold jsonParse { req with topic := t1 } inp st).1).stripHint =
        ((processTurn threshold jsonParse { req with topic := t2 } inp st).1).stripHint ∧
      (processTurn threshold jsonParse { req with topic := t1 } inp st).2 =
        (processTurn threshold jsonParse { req with topic := t2 } inp st).2) ∧
    (req.message ≠ "" → inp.viol = none → ∀ out, inp.call = .success out →
      ∃ d, (processTurn threshold jsonParse req inp st).1 = .turn d ∧
        d.hint = hintOf req.topic req.message ∧
        (d.hint ≠ none ↔
          ∃ t, req.topic = some t ∧ t ≠ "" ∧ keywordMatch t req.message = false)) := by
  constructor
  · intro t1 t2
    by_cases hm : req.message = ""
    · constructor <;> simp [processTurn, hm]
    · cases hv : inp.viol with
      | some k =>
        rw [processTurn_flagged threshold jsonParse { req with topic := t1 } inp st k hm hv,
            processTurn_flagged threshold jsonParse { req with topic := t2 } inp st k hm hv]
        exact ⟨rfl, rfl⟩
      | none =>
        have e1 := (processTurn_clean threshold jsonParse { req with topic := t1 } inp st hm hv).1
        have e2 := (processTurn_clean threshold jsonParse { req with topic := t2 } inp st hm hv).1
        refine ⟨?_, by rw [e1, e2]⟩
        cases hc : inp.call with
        | failure =>
          rw [processTurn_failure threshold jsonParse { req with topic := t1 } inp st hm hv hc,
              processTurn_failure threshold jsonParse { req with topic := t2 } inp st hm hv hc]
        | success out =>
          rw [processTurn_success threshold jsonParse { req with topic := t1 } inp st out hm hv hc,
              processTurn_success threshold jsonParse { req with topic := t2 } inp st out hm hv hc]
          simp [Response.stripHint, mkTurnData]
  · intro hm hv out hc
    exact ⟨mkTurnData jsonParse req inp out,
      processTurn_success threshold jsonParse req inp st out hm hv hc, rfl,
      hintOf_isSome req.topic req.message⟩

/-- Witness for C8: an off-keyword message on the zoo topic yields a turn
response whose hint is present. -/
theorem topic_hint_advisory_witness :
    ∃ d, (processTurn 3 jpNone ⟨"nothing relevant", .Normal, 1,
        some "Zoos are helpful for animals", "A_B"⟩
        ⟨none, .success "x", 0, false⟩ strike0).1 = .turn d ∧
      d.hint = hintOf (some "Zoos are helpful for animals") "nothing relevant" ∧
      (d.hint ≠ none ↔
        ∃ t, (some "Zoos are helpful for animals" : Option String) = some t ∧
          t ≠ "" ∧ keywordMatch t "nothing relevant" = false) := by
  have h := (topic_hint_advisory 3 jpNone ⟨"nothing relevant", .Normal, 1,
      some "Zoos are helpful for animals", "A_B"⟩
      ⟨none, .success "x", 0, false⟩ strike0).2 (by decide) rfl "x" rfl
  exact h

/-- Counterexample to claim C9: two Beginner turns with identical
(rawScore, stance, concession, studentStrength, difficulty, wordCount)
(fallback model data both times, word count 0 both times) and no
randomness (jitter 0, upset roll false) produce different final scores:
the messages " " and "!" have equal word count but differ on the Beginner
guardrail test `message.trim().length > 0`, giving 0.47 versus 0.35.  The
shaped score is therefore not a function of the six listed inputs alone. -/

theorem determinism_counterexample :
    wordCount " " = wordCount "!" ∧
    (processTurn 3 jpNone ⟨" ", .Beginner, 1, none, "A_B"⟩
        ⟨none, .success "no json", 0, false⟩ strike0).1.finalScore ≠
      (processTurn 3 jpNone ⟨"!", .Beginner, 1, none, "A_B"⟩
        ⟨none, .success "no json", 0, false⟩ strike0).1.finalScore := by
  refine ⟨rfl, ?_⟩
  have e1 : (processTurn 3 jpNone ⟨" ", .Beginner, 1, none, "A_B"⟩
      ⟨none, .success "no json", 0, false⟩ strike0).1.finalScore =
      some (shapeScore "mixed" 0 (1/2) .Beginner 0 false 0 false) := rfl
  have e2 : (processTurn 3 jpNone ⟨"!", .Beginner, 1, none, "A_B"⟩
      ⟨none, .success "no json", 0, false⟩ strike0).1.finalScore =
      some (shapeScore "mixed" 0 (1/2) .Beginner 0 true 0 false) := rfl
  rw [e1, e2]
  intro hcontra
  have h := Option.some.inj hcontra
  revert h
  have hne : ("mixed" : String) ≠ "agree" := by decide
  norm_num [shapeScore, clamp01, jsMin, jsMax, mix, applyDifficultyTilt, tiltTarget, tiltK, hne]

/-- Witness for the amended C9 at a concrete Extreme-difficulty input. -/
theorem shaping_function_of_inputs_witness :
    shapeScore "disagree" 0 1 .Extreme 9 true 0 true =
      shapeScore "disagree" 0 1 .Extreme 9 false 0 true :=
  shaping_function_of_inputs "disagree" 0 1 .Extreme 9 true true false (by decide)

/-- Helper for claim C2: running a list of uniformly-flagged requests from
one student key, the i-th response is terminal iff the strike count
reaches the threshold (count before the run plus i+1).  It holds for
every model-call outcome in the inputs: a flagged request returns before
the turn scorer is ever consulted. -/

theorem runDebate_flagged_aux (threshold : Nat) (jsonParse : String → Option RawModelData)
    (key : String) :
    ∀ (inputs : List (TurnRequest × TurnInput)) (st : StrikeState) (i : Nat)
      (x : TurnRequest × TurnInput),
      (∀ y ∈ inputs, y.1.studentKey = key ∧ y.1.message ≠ "" ∧ y.2.viol ≠ none) →
      inputs.get? i = some x →
      (runDebate threshold jsonParse inputs st).1.get? i =
        some (if threshold ≤ st key + i + 1
              then Response.violation "sensitive" true false stopMsg
              else Response.violation "sensitive" false true
                (firstMsg (x.2.viol.getD .hard))) := by
  intro inputs
  induction inputs with
  | nil =>
    intro st i x hall hget
    simp at hget
  | cons hd tl ih =>
    obtain ⟨r, inp⟩ := hd
    intro st i x hall hget
    obtain ⟨hkey, hmsg, hviol⟩ := hall (r, inp) (List.mem_cons_self _ _)
    obtain ⟨k0, hk0⟩ : ∃ k0, inp.viol = some k0 := by
      cases hv2 : inp.viol with
      | none => exact absurd hv2 hviol
      | some kk => exact ⟨kk, rfl⟩
    have hstep := processTurn_flagged threshold jsonParse r inp st k0 hmsg hk0
    rw [hkey] at hstep
    cases i with
    | zero =>
      have hx : x = (r, inp) := by
        have := hget
        simp at this
        exact this.symm
      subst hx
      show ((processTurn threshold jsonParse r inp st).1 ::
        (runDebate threshold jsonParse tl (processTurn threshold jsonParse r inp st).2).1).get? 0 = _
      rw [hstep]
      simp [hk0]
    | succ n =>
      have hget' : tl.get? n = some x := by
        simpa using hget
      have hall' : ∀ y ∈ tl, y.1.studentKey = key ∧ y.1.message ≠ "" ∧ y.2.viol ≠ none :=
        fun y hy => hall y (List.mem_cons_of_mem _ hy)
      show ((processTurn threshold jsonParse r inp st).1 ::
        (runDebate threshold jsonParse tl (processTurn threshold jsonParse r inp st).2).1).get? (n+1) = _
      have hkey2 : (processTurn threshold jsonParse r inp st).2 key = st key + 1 := by
        rw [hstep]
        simp [updateStrike]
      have := ih (processTurn threshold jsonParse r inp st).2 n x hall' hget'
      rw [hkey2] at this
      have harith : st key + 1 + n + 1 = st key + (n + 1) + 1 := by omega
      rw [harith] at this
      simpa using this

/-- Claim C2: starting from strike count 0, every consecutive violating
message before the threshold-th returns the non-terminal violation
(category "sensitive", allowRetry true, endDebate absent/false) without
invoking the turn scorer (the model-call component of each input is
universally quantified and unused), and the threshold-th and all later
consecutive violating messages return the terminal violation
(endDebate true, allowRetry false).  The threshold is 3 in the latest
revision (`next >= 3`) and 2 in the earlier ones (`newCount >= 2`); the
statement covers both by quantifying over the threshold. -/

theorem strike_escalation (threshold : Nat) (jsonParse : String → Option RawModelData)
    (key : String) (inputs : List (TurnRequest × TurnInput)) (st : StrikeState)
    (h0 : st key = 0)
    (hall : ∀ y ∈ inputs, y.1.studentKey = key ∧ y.1.message ≠ "" ∧ y.2.viol ≠ none) :
    ∀ i x, inputs.get? i = some x →
      (runDebate threshold jsonParse inputs st).1.get? i =
        some (if threshold ≤ i + 1
              then Response.violation "sensitive" true false stopMsg
              else Response.violation "sensitive" false true
                (firstMsg (x.2.viol.getD .hard))) := by
  intro i x hget
  have h := runDebate_flagged_aux threshold jsonParse key inputs st i x hall hget
  rwa [h0, Nat.zero_add] at h

def flagReq (msg : String) : TurnRequest := ⟨msg, .Normal, 1, none, "A_B"⟩

def flagInp : TurnInput := ⟨some .hard, .success "x", 0, false⟩

theorem strike_escalation_witness :
    (runDebate 3 jpNone [(flagReq "bad1", flagInp), (flagReq "bad2", flagInp),
        (flagReq "bad3", flagInp)] strike0).1.get? 0 =
      some (Response.violation "sensitive" false true (firstMsg .hard)) ∧
    (runDebate 3 jpNone [(flagReq "bad1", flagInp), (flagReq "bad2", flagInp),
        (flagReq "bad3", flagInp)] strike0).1.get? 2 =
      some (Response.violation "sensitive" true false stopMsg) := by
  constructor
  · have h := strike_escalation 3 jpNone "A_B"
      [(flagReq "bad1", flagInp), (flagReq "bad2", flagInp), (flagReq "bad3", flagInp)]
      strike0 rfl (by decide) 0 (flagReq "bad1", flagInp) rfl
    simpa using h
  · have h := strike_escalation 3 jpNone "A_B"
      [(flagReq "bad1", flagInp), (flagReq "bad2", flagInp), (flagReq "bad3", flagInp)]
      strike0 rfl (by decide) 2 (flagReq "bad3", flagInp) rfl
    simpa using h

/-- One-step unfolding of `runDebate`. -/

theorem runDebate_cons (threshold : Nat) (jsonParse : String → Option RawModelData)
    (r : TurnRequest) (i : TurnInput) (rest : List (TurnRequest × TurnInput))
    (st : StrikeState) :
    runDebate threshold jsonParse ((r, i) :: rest) st =
      ((processTurn threshold jsonParse r i st).1 ::
        (runDebate threshold jsonParse rest (processTurn threshold jsonParse r i st).2).1,
       (runDebate threshold jsonParse rest (processTurn threshold jsonParse r i st).2).2) := rfl

/-- Counterexample to claim C4: with threshold 2, the sequence violation,
clean, violation, violation from one student key starting at strike count 0
DOES reach the terminal violation state — the fourth message is the second
consecutive post-reset violation, so its incremented count 2 meets the
threshold and the response is `endDebate:true, allowRetry:false`. -/
theorem strike_reset_counterexample :
    (runDebate 2 jpNone [(⟨"bad one", .Normal, 1, none, "A_B"⟩, ⟨some .hard, .success "x", 0, false⟩),
        (⟨"hello there", .Normal, 2, none, "A_B"⟩, ⟨none, .failure, 0, false⟩),
        (⟨"bad two", .Normal, 3, none, "A_B"⟩, ⟨some .hard, .success "x", 0, false⟩),
        (⟨"bad three", .Normal, 4, none, "A_B"⟩, ⟨some .hard, .success "x", 0, false⟩)]
      strike0).1.get? 3 =
      some (Response.violation "sensitive" true false stopMsg) := by
  rfl

/-- Amended claim C4: with threshold 2 and a student starting at strike
count 0, in the sequence violation, clean, violation, violation the first
and third messages return non-terminal violations (the clean second message
resets the counter to 0, which is why the third is non-terminal), the second
is not a violation at all, and the fourth — the second consecutive
post-reset violation — returns the terminal state. -/
theorem strike_reset_sequence (jsonParse : String → Option RawModelData) (key : String)
    (r1 r2 r3 r4 : TurnRequest) (i1 i2 i3 i4 : TurnInput) (st : StrikeState)
    (hk1 : r1.studentKey = key) (hk2 : r2.studentKey = key)
    (hk3 : r3.studentKey = key) (hk4 : r4.studentKey = key)
    (hm1 : r1.message ≠ "") (hm2 : r2.message ≠ "")
    (hm3 : r3.message ≠ "") (hm4 : r4.message ≠ "")
    (h0 : st key = 0) (k1 k3 k4 : ViolationKind)
    (hv1 : i1.viol = some k1) (hv2 : i2.viol = none)
    (hv3 : i3.viol = some k3) (hv4 : i4.viol = some k4) :
    (runDebate 2 jsonParse [(r1,i1),(r2,i2),(r3,i3),(r4,i4)] st).1.get? 0 =
        some (Response.violation "sensitive" false true (firstMsg k1)) ∧
    (∃ resp2, (runDebate 2 jsonParse [(r1,i1),(r2,i2),(r3,i3),(r4,i4)] st).1.get? 1 =
        some resp2 ∧ resp2.isViolation = false) ∧
    (runDebate 2 jsonParse [(r1,i1),(r2,i2)] st).2 key = 0 ∧
    (runDebate 2 jsonParse [(r1,i1),(r2,i2),(r3,i3),(r4,i4)] st).1.get? 2 =
        some (Response.violation "sensitive" false true (firstMsg k3)) ∧
    (runDebate 2 jsonParse [(r1,i1),(r2,i2),(r3,i3),(r4,i4)] st).1.get? 3 =
        some (Response.violation "sensitive" true false stopMsg) := by
  have hstep1 := processTurn_flagged 2 jsonParse r1 i1 st k1 hm1 hv1
  rw [hk1] at hstep1
  set st1 := updateStrike st key (st key + 1) with hst1
  have hs1key : st1 key = 1 := by
    rw [hst1]
    simp [updateStrike, h0]
  have hresp1 : (processTurn 2 jsonParse r1 i1 st).1 =
      Response.violation "sensitive" false true (firstMsg k1) := by
    rw [hstep1]
    have : ¬ (2 ≤ st key + 1) := by omega
    simp [this]
  have hst1eq : (processTurn 2 jsonParse r1 i1 st).2 = st1 := by
    rw [hstep1]
  -- step 2: clean message on st1
  have hclean2 := processTurn_clean 2 jsonParse r2 i2 st1 hm2 hv2
  rw [hk2] at hclean2
  have hst2eq : (processTurn 2 jsonParse r2 i2 st1).2 = updateStrike st1 key 0 := by
    rw [hclean2.1, if_pos]
    omega
  have hs2key : (processTurn 2 jsonParse r2 i2 st1).2 key = 0 := by
    rw [hst2eq]
    simp [updateStrike]
  set st2 := (processTurn 2 jsonParse r2 i2 st1).2 with hst2
  -- step 3
  have hstep3 := processTurn_flagged 2 jsonParse r3 i3 st2 k3 hm3 hv3
  rw [hk3] at hstep3
  have hresp3 : (processTurn 2 jsonParse r3 i3 st2).1 =
      Response.violation "sensitive" false true (firstMsg k3) := by
    rw [hstep3]
    have : ¬ (2 ≤ st2 key + 1) := by omega
    simp [this]
  have hst3eq : (processTurn 2 jsonParse r3 i3 st2).2 = updateStrike st2 key (st2 key + 1) := by
    rw [hstep3]
  have hs3key : (processTurn 2 jsonParse r3 i3 st2).2 key = 1 := by
    rw [hst3eq]
    simp [updateStrike, hs2key]
  set st3 := (processTurn 2 jsonParse r3 i3 st2).2 with hst3
  -- step 4
  have hstep4 := processTurn_flagged 2 jsonParse r4 i4 st3 k4 hm4 hv4
  rw [hk4] at hstep4
  have hresp4 : (processTurn 2 jsonParse r4 i4 st3).1 =
      Response.violation "sensitive" true false stopMsg := by
    rw [hstep4]
    have : 2 ≤ st3 key + 1 := by omega
    simp [this]
  have hrun : (runDebate 2 jsonParse [(r1,i1),(r2,i2),(r3,i3),(r4,i4)] st).1 =
      [(processTurn 2 jsonParse r1 i1 st).1, (processTurn 2 jsonParse r2 i2 st1).1,
       (processTurn 2 jsonParse r3 i3 st2).1, (processTurn 2 jsonParse r4 i4 st3).1] := by
    rw [runDebate_cons, hst1eq, runDebate_cons, ← hst2, runDebate_cons, ← hst3, runDebate_cons]
    rfl
  have hrun2 : (runDebate 2 jsonParse [(r1,i1),(r2,i2)] st).2 = st2 := by
    rw [runDebate_cons, hst1eq, runDebate_cons, ← hst2]
    rfl
  refine ⟨?_, ?_, ?_, ?_, ?_⟩
  · rw [hrun]
    simp [hresp1]
  · exact ⟨(processTurn 2 jsonParse r2 i2 st1).1, by rw [hrun]; rfl, hclean2.2⟩
  · rw [hrun2]
    exact hs2key
  · rw [hrun]
    simp [hresp3]
  · rw [hrun]
    simp [hresp4]

/-- Witness for the amended C4 at concrete requests. -/
theorem strike_reset_sequence_witness :
    (runDebate 2 jpNone [(⟨"bad A", .Normal, 1, none, "A_B"⟩, ⟨some .hard, .failure, 0, false⟩),
        (⟨"fine", .Normal, 2, none, "A_B"⟩, ⟨none, .failure, 0, false⟩),
        (⟨"bad B", .Normal, 3, none, "A_B"⟩, ⟨some .hard, .failure, 0, false⟩),
        (⟨"bad C", .Normal, 4, none, "A_B"⟩, ⟨some .hard, .failure, 0, false⟩)]
      strike0).1.get? 0 =
        some (Response.violation "sensitive" false true (firstMsg .hard)) ∧
    (runDebate 2 jpNone [(⟨"bad A", .Normal, 1, none, "A_B"⟩, ⟨some .hard, .failure, 0, false⟩),
        (⟨"fine", .Normal, 2, none, "A_B"⟩, ⟨none, .failure, 0, false⟩)] strike0).2 "A_B" = 0 ∧
    (runDebate 2 jpNone [(⟨"bad A", .Normal, 1, none, "A_B"⟩, ⟨some .hard, .failure, 0, false⟩),
        (⟨"fine", .Normal, 2, none, "A_B"⟩, ⟨none, .failure, 0, false⟩),
        (⟨"bad B", .Normal, 3, none, "A_B"⟩, ⟨some .hard, .failure, 0, false⟩),
        (⟨"bad C", .Normal, 4, none, "A_B"⟩, ⟨some .hard, .failure, 0, false⟩)]
      strike0).1.get? 3 =
        some (Response.violation "sensitive" true false stopMsg) := by
  have h := strike_reset_sequence jpNone "A_B"
    ⟨"bad A", .Normal, 1, none, "A_B"⟩ ⟨"fine", .Normal, 2, none, "A_B"⟩
    ⟨"bad B", .Normal, 3, none, "A_B"⟩ ⟨"bad C", .Normal, 4, none, "A_B"⟩
    ⟨some .hard, .failure, 0, false⟩ ⟨none, .failure, 0, false⟩
    ⟨some .hard, .failure, 0, false⟩ ⟨some .hard, .failure, 0, false⟩
    strike0 rfl rfl rfl rfl (by decide) (by decide) (by decide) (by decide) rfl
    .hard .hard .hard rfl rfl rfl rfl
  exact ⟨h.1, h.2.2.1, h.2.2.2.2⟩
